import Mathlib

/-!
Verification of the `csm` micromamba acquisition-and-execution engine
(`src/micromamba.rs`, with the configuration type from `src/csmrc.rs`).

The Rust code is shallowly embedded: pure data becomes plain Lean
structures, and the effectful functions (`exec_micromamba`,
`csm_cache_dir`, `download_micromamba`, `micromamba`) become explicit
state-passing functions over a world state `WState` (the set of existing
files plus an event log of attempted side effects) together with a fixed
oracle record `Oracles` describing how the environment answers each
system call (spawn, HTTP GET, directory creation, file creation, copy,
permission setting).  Compile-time `cfg!(target_os = ...)` branching is
embedded as a `TargetOS` parameter.
-/

namespace Csm

/-- The `std::io::ErrorKind` values the program distinguishes: it only
ever tests for `NotFound`; every other kind is collapsed into `other`
(with `permissionDenied` kept as a representative non-NotFound kind). -/
inductive ErrorKind where
  | notFound
  | permissionDenied
  | other
deriving DecidableEq, Repr

/-- A `std::io::Error`: its kind plus its display message. -/
structure IOError where
  kind : ErrorKind
  msg : String
deriving DecidableEq, Repr

/-- A `reqwest::Error` (transport failure), abstracted to its message. -/
structure ReqErr where
  msg : String
deriving DecidableEq, Repr

/-- A `std::process::ExitStatus`.  `code` models `ExitStatus::code()`,
which returns `Option<i32>`: `none` when the child was terminated by a
signal, otherwise the child's exit code (on Linux a value in `0..=255`;
on Windows the process exit value reinterpreted as a full `i32`). -/
structure ExitStatus where
  code : Option Int
deriving DecidableEq, Repr

/-- The `Config` struct from `src/csmrc.rs` (only the fields the engine
reads).  `mamba_root` embeds the source field `mamba_root_prefix`. -/
structure Config where
  mamba_root : Option String
  noop_mode : Bool
  cache_dir : Option String
  download_micromamba : Bool
deriving DecidableEq, Repr

/-- `MicromambaResult` from `src/micromamba.rs`: the outcome of trying
to shell out to micromamba.  (The spec calls this `AcquisitionOutcome`
with `Ok` = `Completed` and `CouldNotRun` = `ExecutionFailed`.) -/
inductive MicromambaResult where
  | Noop
  | Ok (exit_status : ExitStatus)
  | NotFound
  | CouldNotRun
deriving DecidableEq, Repr

/-- Numeric value of `std::process::ExitCode::SUCCESS`. -/
def exitCode_SUCCESS : Nat := 0

/-- Numeric value of `std::process::ExitCode::FAILURE`. -/
def exitCode_FAILURE : Nat := 1

/-- `MicromambaResult::exit_code`.  The source maps `Ok(exit_status)` to
`exit_status.code().map(|c| ExitCode::from(c as u8)).unwrap_or(FAILURE)`;
the Rust cast `c as u8` keeps the low 8 bits of the two's-complement
representation, i.e. the Euclidean remainder `c % 256`. -/
def exit_code : MicromambaResult → Nat
  | .Ok exit_status =>
      match exit_status.code with
      | some c => (c % 256).toNat
      | none => exitCode_FAILURE
  | .Noop => exitCode_SUCCESS
  | _ => exitCode_FAILURE

/-- `DownloadError` from `src/micromamba.rs`.  The source variant
`IO(io::Error)` is embedded as `IOFail` (the spec calls it `IOFailure`),
`Reqwest(reqwest::Error)` as `Reqwest` (spec: `TransportFailure`). -/
inductive DownloadError where
  | IncompatibleOS
  | BinNotInArchive
  | IOFail (e : IOError)
  | Reqwest (e : ReqErr)
deriving DecidableEq, Repr

/-- The compile-time target OS, embedding the `cfg!(target_os = ...)`
tests of the source (`other` covers every OS that is neither Linux nor
Windows). -/
inductive TargetOS where
  | linux
  | windows
  | otherOS
deriving DecidableEq, Repr

/-- An observable side-effect attempt, recorded in the order the source
performs the corresponding system call. -/
inductive Event where
  | spawn (path : String)
  | httpGet (url : String)
  | createFile (path : String)
  | createDir (path : String)
deriving DecidableEq, Repr

/-- Mutable world state threaded through the effectful functions: the
set of existing files (paths) and the log of attempted side effects. -/
structure WState where
  fs : List String
  events : List Event
deriving DecidableEq, Repr

/-- Record one side-effect attempt in the event log. -/
def record (s : WState) (e : Event) : WState :=
  { s with events := e :: s.events }

/-- `Path::exists`, over the world's file set. -/
def fileExists (s : WState) (p : String) : Bool :=
  decide (p ∈ s.fs)

/-- Number of HTTP GET requests recorded in the event log. -/
def httpGetCount (s : WState) : Nat :=
  (s.events.filter fun e =>
    match e with
    | .httpGet _ => true
    | _ => false).length

/-- Decidable equality of `Except` results, available for concrete
evaluation of the definitions below. -/
instance instDecEqExcept {ε α : Type} [DecidableEq ε] [DecidableEq α] :
    DecidableEq (Except ε α) := fun x y =>
  match x, y with
  | .ok a, .ok b =>
      if h : a = b then .isTrue (by rw [h]) else .isFalse (by simp [h])
  | .error a, .error b =>
      if h : a = b then .isTrue (by rw [h]) else .isFalse (by simp [h])
  | .ok _, .error _ => .isFalse (by simp)
  | .error _, .ok _ => .isFalse (by simp)

/-- A tar-archive entry, as far as the source inspects it:
`entry.path()` returns `Result<path>`. -/
structure Entry where
  path : Except IOError String
deriving DecidableEq, Repr

/-- The decompressed response body, as far as the source inspects it:
`tar_archive.entries()` returns `io::Result` of an iterator whose items
are themselves `io::Result<Entry>`. -/
structure Archive where
  entriesResult : Except IOError (List (Except IOError Entry))
deriving DecidableEq, Repr

/-- What happens when `Command::spawn` is attempted at a path: either
the spawn fails with an `io::Error`, or a child is created and
`Child::wait` then yields the given result. -/
inductive SpawnOutcome where
  | failed (e : IOError)
  | spawned (wait : Except IOError ExitStatus)
deriving DecidableEq, Repr

/-- Fixed environment oracles: the (deterministic) answers of the
operating system and the network to each system call the source makes. -/
structure Oracles where
  /-- `dirs::cache_dir()`. -/
  sysCacheDir : Option String
  /-- `fs::create_dir_all` at a path. -/
  createDirAll : String → Except IOError Unit
  /-- `Command::spawn` at a program path (plus the subsequent wait). -/
  spawnAt : String → SpawnOutcome
  /-- `reqwest::blocking::get` at a URL, composed with the BZip2
  decoder and tar reader applied to the response body. -/
  net : String → Except ReqErr Archive
  /-- `fs::File::create` at a path. -/
  createFile : String → Except IOError Unit
  /-- `io::copy` of the matched entry into the file at a path. -/
  copyEntry : String → Except IOError Unit
  /-- `File::metadata` at a path (its permission mode bits). -/
  metadataOf : String → Except IOError Nat
  /-- `fs::set_permissions` at a path with the given mode bits. -/
  setPerms : String → Nat → Except IOError Unit

/-- Abstract path join (`PathBuf::join`). -/
def pathJoin (p q : String) : String :=
  p ++ "/" ++ q

/-- The command descriptor built by `micromamba_at`: program path,
arguments, and environment-variable overrides (spec:
`ProcessDescriptor`). -/
structure Cmd where
  program : String
  args : List String
  envs : List (String × String)
deriving DecidableEq, Repr

/-- `micromamba_at` from `src/micromamba.rs`: build a command for the
given path with `MAMBA_ROOT_PREFIX` set when the config overrides it
(the function only logs besides this; it spawns nothing). -/
def micromamba_at (path : String) (config : Config) (args : List String) : Cmd :=
  let env_vars : List (String × String) :=
    match config.mamba_root with
    | some p => [("MAMBA_ROOT_PREFIX", p)]
    | none => []
  { program := path, args := args, envs := env_vars }

/-- `block_on_child_exit`: classify the result of `Child::wait`. -/
def block_on_child_exit (wait : Except IOError ExitStatus) : MicromambaResult :=
  match wait with
  | .ok exit_status => .Ok exit_status
  | .error _ => .CouldNotRun

/-- `exec_micromamba`: attempt `cmd.spawn()`; a spawn failure of kind
`NotFound` yields `NotFound`, any other spawn failure yields
`CouldNotRun`, and a successful spawn is waited on via
`block_on_child_exit`. -/
def exec_micromamba (o : Oracles) (cmd : Cmd) (s : WState) :
    MicromambaResult × WState :=
  let s := record s (.spawn cmd.program)
  match o.spawnAt cmd.program with
  | .spawned wait => (block_on_child_exit wait, s)
  | .failed e =>
      if e.kind = .notFound then (.NotFound, s) else (.CouldNotRun, s)

/-- `csm_cache_dir`: the configured override verbatim if set, otherwise
`dirs::cache_dir()` joined with `"csm"` (failing with a `NotFound`
`io::Error` when the platform cache root is undeterminable); then
`fs::create_dir_all` on the chosen directory. -/
def csm_cache_dir (config : Config) (o : Oracles) (s : WState) :
    Except IOError String × WState :=
  let cacheE : Except IOError String :=
    match config.cache_dir with
    | some cache_dir => .ok cache_dir
    | none =>
        match o.sysCacheDir with
        | some p => .ok (pathJoin p "csm")
        | none =>
            .error { kind := .notFound
                     msg := "could not determine user cache directory" }
  match cacheE with
  | .error e => (.error e, s)
  | .ok cache =>
      let s := record s (.createDir cache)
      match o.createDirAll cache with
      | .error e => (.error e, s)
      | .ok _ => (.ok cache, s)

/-- The cached binary filename per target OS: the first
`cfg!(target_os = ...)` chain of `download_micromamba` (`none` embeds
the `IncompatibleOS` early return). -/
def binName : TargetOS → Option String
  | .linux => some "micromamba"
  | .windows => some "micromamba.exe"
  | .otherOS => none

/-- The platform tag used in the download URL: the second
`cfg!(target_os = ...)` chain of `download_micromamba`. -/
def osTag : TargetOS → Option String
  | .linux => some "linux"
  | .windows => some "win"
  | .otherOS => none

/-- The in-archive path of the binary: the third
`cfg!(target_os = ...)` chain of `download_micromamba`
(`Path::new("bin").join("micromamba")` resp.
`Path::new("Library").join("bin").join("micromamba.exe")`). -/
def archive_binary_path : TargetOS → Option String
  | .linux => some (pathJoin "bin" "micromamba")
  | .windows => some (pathJoin "Library" (pathJoin "bin" "micromamba.exe"))
  | .otherOS => none

/-- The download URL built by `download_micromamba` for a platform tag. -/
def dl_url (os_tag : String) : String :=
  "https://micro.mamba.pm/api/micromamba/" ++ os_tag ++ "-64/latest"

/-- The extraction step of `download_micromamba` once the matching
entry was found: `File::create` at the cache path, `io::copy` of the
entry into it, and (under `cfg(unix)`, i.e. on Linux here) fetching the
file's permissions, setting mode `0o755` and writing them back.  Each
`?` early-returns the `io::Error` as `DownloadError::IO`.  Note that
the file enters the file set as soon as `File::create` succeeds, before
the copy: extraction is not atomic. -/
def extractEntry (os : TargetOS) (micromamba_path : String) (o : Oracles)
    (s : WState) : Except DownloadError String × WState :=
  let s := record s (.createFile micromamba_path)
  match o.createFile micromamba_path with
  | .error e => (.error (.IOFail e), s)
  | .ok _ =>
      let s := { s with fs := micromamba_path :: s.fs }
      match o.copyEntry micromamba_path with
      | .error e => (.error (.IOFail e), s)
      | .ok _ =>
          match os with
          | .linux =>
              match o.metadataOf micromamba_path with
              | .error e => (.error (.IOFail e), s)
              | .ok _ =>
                  match o.setPerms micromamba_path 493 with
                  | .error e => (.error (.IOFail e), s)
                  | .ok _ => (.ok micromamba_path, s)
          | _ => (.ok micromamba_path, s)

/-- The entry-scanning loop of `download_micromamba`: walk the archive
entries in order; an entry-read failure early-returns it as
`DownloadError::IO`; an entry whose `path()` fails or differs from
`abp` (the expected in-archive path) is skipped; the first entry whose
path equals `abp` is extracted to `micromamba_path`; an exhausted scan
yields `BinNotInArchive`. -/
def find_and_extract (os : TargetOS) (abp micromamba_path : String)
    (o : Oracles) :
    List (Except IOError Entry) → WState → Except DownloadError String × WState
  | [], s => (.error .BinNotInArchive, s)
  | .error e :: _, s => (.error (.IOFail e), s)
  | .ok entry :: rest, s =>
      match entry.path with
      | .ok p =>
          if p = abp then extractEntry os micromamba_path o s
          else find_and_extract os abp micromamba_path o rest s
      | .error _ => find_and_extract os abp micromamba_path o rest s

/-- `download_micromamba` from `src/micromamba.rs`: resolve the cache
directory, compute the OS-specific cache path, return it immediately on
a cache hit, otherwise download the OS-specific archive over HTTP,
decompress it, and scan it for the binary entry to extract.  (Spec name:
`Downloader.ensureCachedBinary`.) -/
def download_micromamba (os : TargetOS) (config : Config) (o : Oracles)
    (s : WState) : Except DownloadError String × WState :=
  match csm_cache_dir config o s with
  | (.error e, s) => (.error (.IOFail e), s)
  | (.ok cache_dir, s) =>
      match binName os with
      | none => (.error .IncompatibleOS, s)
      | some name =>
          let micromamba_path := pathJoin cache_dir name
          if fileExists s micromamba_path then (.ok micromamba_path, s)
          else
            match osTag os with
            | none => (.error .IncompatibleOS, s)
            | some os_tag =>
                match archive_binary_path os with
                | none => (.error .IncompatibleOS, s)
                | some abp =>
                    let url := dl_url os_tag
                    let s := record s (.httpGet url)
                    match o.net url with
                    | .error e => (.error (.Reqwest e), s)
                    | .ok tar_archive =>
                        match tar_archive.entriesResult with
                        | .error e => (.error (.IOFail e), s)
                        | .ok entries =>
                            find_and_extract os abp micromamba_path o entries s

/-- `micromamba` from `src/micromamba.rs`, the acquisition coordinator
(spec name: `acquireAndRun`): build the bare-name command; in no-op
mode return `Noop` at once; otherwise try the `$PATH` binary, returning
`Ok` or `CouldNotRun` as terminal; on `NotFound` fall back to
`download_micromamba`, converting any download error to `CouldNotRun`,
and run the downloaded/cached binary, with every non-`Ok` outcome of
that final attempt collapsing to `CouldNotRun`. -/
def micromamba (os : TargetOS) (config : Config) (args : List String)
    (o : Oracles) (s : WState) : MicromambaResult × WState :=
  let cmd := micromamba_at "micromamba" config args
  if config.noop_mode then (.Noop, s)
  else
    match exec_micromamba o cmd s with
    | (.Ok exit_status, s) => (.Ok exit_status, s)
    | (.CouldNotRun, s) => (.CouldNotRun, s)
    | (_, s) =>
        match download_micromamba os config o s with
        | (.error _, s) => (.CouldNotRun, s)
        | (.ok downloaded_path, s) =>
            match exec_micromamba o (micromamba_at downloaded_path config args) s with
            | (.Ok exit_status, s) => (.Ok exit_status, s)
            | (_, s) => (.CouldNotRun, s)

/-- Does the scan loop of `download_micromamba` skip this entry and
keep scanning?  True exactly for a readable entry whose path either
fails to read or differs from the expected in-archive path `abp`. -/
def skipsEntry (abp : String) : Except IOError Entry → Bool
  | .error _ => false
  | .ok entry =>
      match entry.path with
      | .ok p => decide (p ≠ abp)
      | .error _ => true

/-- The empty world: no files, no recorded events. -/
def wEmpty : WState := { fs := [], events := [] }

/-- Baseline configuration for concrete evaluations: a cache-directory
override and downloads enabled. -/
def cfgBase : Config :=
  { mamba_root := none
    noop_mode := false
    cache_dir := some "/cache"
    download_micromamba := true }

/-- Concrete environment in which no `micromamba` can be spawned
anywhere (`NotFound` on every spawn) and the network is unreachable. -/
def oraOffline : Oracles :=
  { sysCacheDir := some "/home/user/.cache"
    createDirAll := fun _ => .ok ()
    spawnAt := fun _ => .failed { kind := .notFound, msg := "No such file or directory" }
    net := fun _ => .error { msg := "connection refused" }
    createFile := fun _ => .ok ()
    copyEntry := fun _ => .ok ()
    metadataOf := fun _ => .ok 420
    setPerms := fun _ _ => .ok () }

/-- Concrete environment in which every spawn fails with a
permission-denied error. -/
def oraDenied : Oracles :=
  { oraOffline with
    spawnAt := fun _ => .failed { kind := .permissionDenied, msg := "Permission denied" } }

/-- A concrete two-entry archive whose second entry is `bin/micromamba`. -/
def arSample : Archive :=
  { entriesResult := .ok
      [.ok { path := .ok (pathJoin "bin" "other") },
       .ok { path := .ok (pathJoin "bin" "micromamba") }] }

/-- Concrete environment with a reachable network serving `arSample`. -/
def oraArchive : Oracles :=
  { oraOffline with net := fun _ => .ok arSample }

/-- Concrete environment serving `arSample` but whose filesystem fails
every `io::copy` with an out-of-space error. -/
def oraCopyFail : Oracles :=
  { oraArchive with
    copyEntry := fun _ => .error { kind := .other, msg := "No space left on device" } }

/-- A concrete archive that contains no `bin/micromamba` entry. -/
def arNoMatch : Archive :=
  { entriesResult := .ok [.ok { path := .ok (pathJoin "bin" "other") }] }

/-- Concrete environment whose network serves `arNoMatch`. -/
def oraNoMatch : Oracles :=
  { oraOffline with net := fun _ => .ok arNoMatch }

/-- Concrete environment on a machine with no resolvable user cache
root (`dirs::cache_dir()` returns `None`). -/
def oraNoHome : Oracles :=
  { oraOffline with sysCacheDir := none }

/-- Configuration with no cache-directory override. -/
def cfgNoCache : Config :=
  { mamba_root := none
    noop_mode := false
    cache_dir := none
    download_micromamba := true }

/-- The world state left by a successful download of `arSample` into an
initially empty `/cache` under `cfgBase`/`oraArchive`. -/
def s1c : WState :=
  { fs := ["/cache/micromamba"]
    events := [.createFile "/cache/micromamba",
               .httpGet (dl_url "linux"),
               .createDir "/cache"] }

end Csm

namespace Csm

lemma record_fs (s : WState) (e : Event) : (record s e).fs = s.fs := rfl

lemma fileExists_true_iff (s : WState) (p : String) :
    fileExists s p = true ↔ p ∈ s.fs := by
  simp [fileExists]

lemma fileExists_false_iff (s : WState) (p : String) :
    fileExists s p = false ↔ p ∉ s.fs := by
  simp [fileExists]

lemma httpGetCount_record_spawn (s : WState) (p : String) :
    httpGetCount (record s (.spawn p)) = httpGetCount s := by
  simp [httpGetCount, record, List.filter]

lemma httpGetCount_record_createDir (s : WState) (p : String) :
    httpGetCount (record s (.createDir p)) = httpGetCount s := by
  simp [httpGetCount, record, List.filter]

lemma httpGetCount_record_createFile (s : WState) (p : String) :
    httpGetCount (record s (.createFile p)) = httpGetCount s := by
  simp [httpGetCount, record, List.filter]

lemma httpGetCount_record_httpGet (s : WState) (u : String) :
    httpGetCount (record s (.httpGet u)) = httpGetCount s + 1 := by
  simp [httpGetCount, record, List.filter]

lemma httpGetCount_fs_update (s : WState) (l : List String) :
    httpGetCount { s with fs := l } = httpGetCount s := rfl

lemma csm_cache_dir_ok_shape {config : Config} {o : Oracles} {s : WState}
    {cd : String} (h : (csm_cache_dir config o s).1 = .ok cd) (t : WState) :
    csm_cache_dir config o t = (.ok cd, record t (.createDir cd)) := by
  unfold csm_cache_dir at h ⊢
  rcases hcd : config.cache_dir with _ | d
  · rcases hsys : o.sysCacheDir with _ | p
    · simp [hcd, hsys] at h
    · rcases hcr : o.createDirAll (pathJoin p "csm") with e | u
      · simp [hcd, hsys, hcr] at h
      · simp only [hcd, hsys, hcr] at h ⊢
        simp at h
        subst h
        rfl
  · rcases hcr : o.createDirAll d with e | u
    · simp [hcd, hcr] at h
    · simp only [hcd, hcr] at h ⊢
      simp at h
      subst h
      rfl

lemma csm_cache_dir_pair_shape {config : Config} {o : Oracles} {s sA : WState}
    {cd : String} (h : csm_cache_dir config o s = (.ok cd, sA)) :
    sA = record s (.createDir cd) := by
  have h1 : (csm_cache_dir config o s).1 = .ok cd := by rw [h]
  have := csm_cache_dir_ok_shape h1 s
  rw [h] at this
  exact (Prod.mk.injEq _ _ _ _ ▸ this).2

lemma extractEntry_count (os : TargetOS) (mp : String) (o : Oracles)
    (s : WState) : httpGetCount (extractEntry os mp o s).2 = httpGetCount s := by
  unfold extractEntry
  rcases hc : o.createFile mp with e | u
  · simp [httpGetCount, record]
  · dsimp only
    rcases hcp : o.copyEntry mp with e | u
    · simp [httpGetCount, record]
    · dsimp only
      cases os
      · rcases hm : o.metadataOf mp with e | m
        · simp [httpGetCount, record]
        · dsimp only
          rcases hsp : o.setPerms mp 493 with e | u
          · simp [httpGetCount, record]
          · simp [httpGetCount, record]
      · simp [httpGetCount, record]
      · simp [httpGetCount, record]

lemma extractEntry_ok_shape {os : TargetOS} {mp : String} {o : Oracles}
    {s s' : WState} {q : String}
    (h : extractEntry os mp o s = (.ok q, s')) :
    q = mp ∧ s'.fs = mp :: s.fs := by
  unfold extractEntry at h
  rcases hc : o.createFile mp with e | u
  · rw [hc] at h; simp at h
  · rw [hc] at h; dsimp only at h
    rcases hcp : o.copyEntry mp with e | u
    · rw [hcp] at h; simp at h
    · rw [hcp] at h; dsimp only at h
      cases os
      · rcases hm : o.metadataOf mp with e | m
        · rw [hm] at h; simp at h
        · rw [hm] at h; dsimp only at h
          rcases hsp : o.setPerms mp 493 with e | u
          · rw [hsp] at h; simp at h
          · rw [hsp] at h; dsimp only at h
            injection h with h1 h2
            injection h1 with h1
            exact ⟨h1.symm, by rw [← h2]; rfl⟩
      · injection h with h1 h2
        injection h1 with h1
        exact ⟨h1.symm, by rw [← h2]; rfl⟩
      · injection h with h1 h2
        injection h1 with h1
        exact ⟨h1.symm, by rw [← h2]; rfl⟩

lemma find_and_extract_count (os : TargetOS) (abp mp : String) (o : Oracles)
    (l : List (Except IOError Entry)) (s : WState) :
    httpGetCount (find_and_extract os abp mp o l s).2 = httpGetCount s := by
  induction l with
  | nil => rfl
  | cons x rest ih =>
      rcases x with e | entry
      · rfl
      · rcases hp : entry.path with e | p
        · simp only [find_and_extract, hp]
          exact ih
        · by_cases hpe : p = abp
          · simp only [find_and_extract, hp, hpe, if_pos]
            exact extractEntry_count os mp o s
          · simp only [find_and_extract, hp, if_neg hpe]
            exact ih

lemma find_and_extract_ok_shape {os : TargetOS} {abp mp : String} {o : Oracles}
    {l : List (Except IOError Entry)} {s : WState} :
    ∀ {s' : WState} {q : String},
      find_and_extract os abp mp o l s = (.ok q, s') →
      q = mp ∧ s'.fs = mp :: s.fs := by
  induction l with
  | nil => intro s' q h; simp [find_and_extract] at h
  | cons x rest ih =>
      intro s' q h
      rcases x with e | entry
      · simp [find_and_extract] at h
      · rcases hp : entry.path with e | p
        · simp only [find_and_extract, hp] at h
          exact ih h
        · simp only [find_and_extract, hp] at h
          by_cases hpe : p = abp
          · rw [if_pos hpe] at h
            exact extractEntry_ok_shape h
          · rw [if_neg hpe] at h
            exact ih h

lemma find_and_extract_skip_head {os : TargetOS} {abp mp : String}
    {o : Oracles} {x : Except IOError Entry}
    (hx : skipsEntry abp x = true) (l : List (Except IOError Entry))
    (s : WState) :
    find_and_extract os abp mp o (x :: l) s = find_and_extract os abp mp o l s := by
  rcases x with e | entry
  · simp [skipsEntry] at hx
  · rcases hp : entry.path with e | p
    · simp [find_and_extract, hp]
    · simp only [skipsEntry, hp] at hx
      simp at hx
      simp [find_and_extract, hp, hx]

lemma find_and_extract_skip_all {os : TargetOS} {abp mp : String}
    {o : Oracles} {pre : List (Except IOError Entry)}
    (hpre : ∀ x ∈ pre, skipsEntry abp x = true)
    (rest : List (Except IOError Entry)) (s : WState) :
    find_and_extract os abp mp o (pre ++ rest) s =
      find_and_extract os abp mp o rest s := by
  induction pre with
  | nil => rfl
  | cons x pre ih =>
      rw [List.cons_append,
        find_and_extract_skip_head (hpre x (List.mem_cons_self x pre))]
      exact ih fun y hy => hpre y (List.mem_cons_of_mem x hy)

lemma find_and_extract_match_head {os : TargetOS} {abp mp : String}
    {o : Oracles} {ent : Entry} (hp : ent.path = .ok abp)
    (rest : List (Except IOError Entry)) (s : WState) :
    find_and_extract os abp mp o (.ok ent :: rest) s = extractEntry os mp o s := by
  simp [find_and_extract, hp]


lemma download_hit {os : TargetOS} {config : Config} {o : Oracles}
    {s sA : WState} {cd nm : String}
    (hccd : csm_cache_dir config o s = (.ok cd, sA))
    (hbn : binName os = some nm)
    (hhit : fileExists sA (pathJoin cd nm) = true) :
    download_micromamba os config o s = (.ok (pathJoin cd nm), sA) := by
  unfold download_micromamba
  rw [hccd]
  dsimp only
  rw [hbn]
  dsimp only
  rw [hhit]
  rfl

lemma download_unfold {os : TargetOS} {config : Config} {o : Oracles}
    {s sA : WState} {cd nm tg abp : String} {ar : Archive}
    {entries : List (Except IOError Entry)}
    (hccd : csm_cache_dir config o s = (.ok cd, sA))
    (hbn : binName os = some nm)
    (hmiss : fileExists sA (pathJoin cd nm) = false)
    (htg : osTag os = some tg)
    (habp : archive_binary_path os = some abp)
    (hnet : o.net (dl_url tg) = .ok ar)
    (hent : ar.entriesResult = .ok entries) :
    download_micromamba os config o s =
      find_and_extract os abp (pathJoin cd nm) o entries
        (record sA (.httpGet (dl_url tg))) := by
  unfold download_micromamba
  rw [hccd]
  dsimp only
  rw [hbn]
  dsimp only
  rw [hmiss]
  rw [if_neg (by simp)]
  rw [htg]
  dsimp only
  rw [habp]
  dsimp only
  rw [hnet]
  dsimp only
  rw [hent]

lemma download_net_error {os : TargetOS} {config : Config} {o : Oracles}
    {s sA : WState} {cd nm tg abp : String} {e : ReqErr}
    (hccd : csm_cache_dir config o s = (.ok cd, sA))
    (hbn : binName os = some nm)
    (hmiss : fileExists sA (pathJoin cd nm) = false)
    (htg : osTag os = some tg)
    (habp : archive_binary_path os = some abp)
    (hnet : o.net (dl_url tg) = .error e) :
    download_micromamba os config o s =
      (.error (.Reqwest e), record sA (.httpGet (dl_url tg))) := by
  unfold download_micromamba
  rw [hccd]
  dsimp only
  rw [hbn]
  dsimp only
  rw [hmiss]
  rw [if_neg (by simp)]
  rw [htg]
  dsimp only
  rw [habp]
  dsimp only
  rw [hnet]

lemma download_entries_error {os : TargetOS} {config : Config} {o : Oracles}
    {s sA : WState} {cd nm tg abp : String} {ar : Archive} {e : IOError}
    (hccd : csm_cache_dir config o s = (.ok cd, sA))
    (hbn : binName os = some nm)
    (hmiss : fileExists sA (pathJoin cd nm) = false)
    (htg : osTag os = some tg)
    (habp : archive_binary_path os = some abp)
    (hnet : o.net (dl_url tg) = .ok ar)
    (hent : ar.entriesResult = .error e) :
    download_micromamba os config o s =
      (.error (.IOFail e), record sA (.httpGet (dl_url tg))) := by
  unfold download_micromamba
  rw [hccd]
  dsimp only
  rw [hbn]
  dsimp only
  rw [hmiss]
  rw [if_neg (by simp)]
  rw [htg]
  dsimp only
  rw [habp]
  dsimp only
  rw [hnet]
  dsimp only
  rw [hent]

lemma osTag_of_binName {os : TargetOS} {nm : String}
    (hbn : binName os = some nm) : ∃ tg, osTag os = some tg := by
  cases os
  · exact ⟨"linux", rfl⟩
  · exact ⟨"win", rfl⟩
  · simp [binName] at hbn

lemma abp_of_binName {os : TargetOS} {nm : String}
    (hbn : binName os = some nm) : ∃ abp, archive_binary_path os = some abp := by
  cases os
  · exact ⟨pathJoin "bin" "micromamba", rfl⟩
  · exact ⟨pathJoin "Library" (pathJoin "bin" "micromamba.exe"), rfl⟩
  · simp [binName] at hbn

lemma download_ok_anatomy {os : TargetOS} {config : Config} {o : Oracles}
    {s s₁ : WState} {p : String}
    (h : download_micromamba os config o s = (.ok p, s₁)) :
    ∃ cd nm, csm_cache_dir config o s = (.ok cd, record s (.createDir cd)) ∧
      binName os = some nm ∧ p = pathJoin cd nm ∧ p ∈ s₁.fs ∧
      (p ∈ s.fs → s₁ = record s (.createDir cd)) ∧
      (p ∉ s.fs → httpGetCount s₁ = httpGetCount s + 1) := by
  rcases hccd : csm_cache_dir config o s with ⟨rc, sA⟩
  rcases rc with e | cd
  · unfold download_micromamba at h
    rw [hccd] at h
    simp at h
  · have hsA := csm_cache_dir_pair_shape hccd
    subst hsA
    rcases hbn : binName os with _ | nm
    · unfold download_micromamba at h
      rw [hccd] at h
      dsimp only at h
      rw [hbn] at h
      simp at h
    · rcases hhit : fileExists (record s (.createDir cd)) (pathJoin cd nm) with _ | _
      · -- cache miss
        obtain ⟨tg, htg⟩ := osTag_of_binName hbn
        obtain ⟨abp, habp⟩ := abp_of_binName hbn
        rcases hnet : o.net (dl_url tg) with e | ar
        · rw [download_net_error hccd hbn hhit htg habp hnet] at h
          simp at h
        · rcases hent : ar.entriesResult with e | entries
          · rw [download_entries_error hccd hbn hhit htg habp hnet hent] at h
            simp at h
          · rw [download_unfold hccd hbn hhit htg habp hnet hent] at h
            obtain ⟨hq, hfs⟩ := find_and_extract_ok_shape h
            refine ⟨cd, nm, rfl, rfl, hq, ?_, ?_, ?_⟩
            · rw [hfs, hq]
              exact List.mem_cons_self _ _
            · intro hmem
              exfalso
              rw [fileExists_false_iff, record_fs] at hhit
              rw [hq] at hmem
              exact hhit hmem
            · intro _
              have hcount : httpGetCount s₁ =
                  httpGetCount (record (record s (.createDir cd)) (.httpGet (dl_url tg))) := by
                have hc := find_and_extract_count os abp (pathJoin cd nm) o entries
                  (record (record s (.createDir cd)) (.httpGet (dl_url tg)))
                rw [h] at hc
                exact hc
              rw [hcount, httpGetCount_record_httpGet, httpGetCount_record_createDir]
      · -- cache hit
        rw [download_hit hccd hbn hhit] at h
        injection h with h1 h2
        injection h1 with h1
        subst h2
        refine ⟨cd, nm, rfl, rfl, h1.symm, ?_, fun _ => rfl, ?_⟩
        · rw [fileExists_true_iff] at hhit
          rw [← h1]
          exact hhit
        · intro hmem
          exfalso
          rw [fileExists_true_iff, record_fs] at hhit
          rw [← h1] at hmem
          exact hmem hhit
lemma exec_snd (o : Oracles) (cmd : Cmd) (s : WState) :
    (exec_micromamba o cmd s).2 = record s (.spawn cmd.program) := by
  unfold exec_micromamba
  rcases hsp : o.spawnAt cmd.program with e | w
  · by_cases hk : e.kind = .notFound <;> simp [hsp, hk]
  · simp [hsp]

lemma micromamba_of_noop {os : TargetOS} {config : Config}
    {args : List String} {o : Oracles} {s : WState}
    (h : config.noop_mode = true) :
    micromamba os config args o s = (.Noop, s) := by
  unfold micromamba
  rw [h]
  rfl

lemma micromamba_of_path_fail {os : TargetOS} {config : Config}
    {args : List String} {o : Oracles} {s s₁ : WState}
    (hn : config.noop_mode = false)
    (hexec : exec_micromamba o (micromamba_at "micromamba" config args) s =
      (.CouldNotRun, s₁)) :
    micromamba os config args o s = (.CouldNotRun, s₁) := by
  unfold micromamba
  rw [hn]
  rw [if_neg (by simp)]
  rw [hexec]

/-- C2 (counterexample): the claim asserts every `Completed` status
carrying a code maps to the child's own exit code, but for code 300
(possible on Windows, where `ExitStatus::code()` returns the full
`i32`) the cast `c as u8` yields 44 — neither the child's own code nor
the fixed failure code. -/
theorem c2_exit_code_counterexample :
    exit_code (.Ok { code := some 300 }) = 44 ∧
    ((exit_code (.Ok { code := some 300 }) == 300) = false) ∧
    ((exit_code (.Ok { code := some 300 }) == exitCode_FAILURE) = false) := by
  refine ⟨by decide, by decide, by decide⟩

/-- C2 (amended): `exit_code` maps `Ok(status)` to the child's code
reduced modulo 256 (hence to the child's own code whenever it fits in
`0..=255`, which is always the case on POSIX), to the fixed failure
code when the status carries no code, `Noop` to success (0), and
`NotFound`/`CouldNotRun` to the fixed non-zero failure code (1). -/
theorem c2_exit_code_mapping :
    (∀ c : Int, exit_code (.Ok { code := some c }) = (c % 256).toNat) ∧
    (∀ n : Nat, n < 256 → exit_code (.Ok { code := some (n : Int) }) = n) ∧
    exit_code (.Ok { code := none }) = exitCode_FAILURE ∧
    exit_code .Noop = exitCode_SUCCESS ∧
    exit_code .NotFound = exitCode_FAILURE ∧
    exit_code .CouldNotRun = exitCode_FAILURE ∧
    exitCode_SUCCESS = 0 ∧ exitCode_FAILURE = 1 := by
  refine ⟨fun c => rfl, fun n hn => ?_, rfl, rfl, rfl, rfl, rfl, rfl⟩
  show ((n : Int) % 256).toNat = n
  rw [Int.emod_eq_of_lt (by omega) (by omega)]
  simp

/-- C2 (witness): the amended mapping at the concrete in-range code 7. -/
theorem c2_exit_code_mapping_witness :
    7 < 256 ∧ exit_code (.Ok { code := some (7 : Int) }) = 7 :=
  ⟨by decide, c2_exit_code_mapping.2.1 7 (by decide)⟩

/-- C4: `exec_micromamba` returns `NotFound` exactly when the spawn
fails with the `NotFound` error kind, `CouldNotRun` for every other
spawn failure and for a failed wait, and `Ok(status)` whenever the wait
succeeds, regardless of the child's own exit status. -/
theorem c4_executor_outcome_classification :
    ∀ (o : Oracles) (cmd : Cmd) (s : WState),
      ((exec_micromamba o cmd s).1 = .NotFound ↔
        ∃ e, o.spawnAt cmd.program = .failed e ∧ e.kind = .notFound) ∧
      (∀ e, o.spawnAt cmd.program = .failed e → e.kind ≠ .notFound →
        (exec_micromamba o cmd s).1 = .CouldNotRun) ∧
      (∀ e, o.spawnAt cmd.program = .spawned (.error e) →
        (exec_micromamba o cmd s).1 = .CouldNotRun) ∧
      (∀ st, o.spawnAt cmd.program = .spawned (.ok st) →
        (exec_micromamba o cmd s).1 = .Ok st) := by
  intro o cmd s
  refine ⟨⟨?_, ?_⟩, ?_, ?_, ?_⟩
  · intro h
    rcases hsp : o.spawnAt cmd.program with e | w
    · by_cases hk : e.kind = .notFound
      · exact ⟨e, rfl, hk⟩
      · simp [exec_micromamba, hsp, hk] at h
    · rcases w with e | st <;> simp [exec_micromamba, block_on_child_exit, hsp] at h
  · rintro ⟨e, hsp, hk⟩
    simp [exec_micromamba, hsp, hk]
  · intro e hsp hk
    simp [exec_micromamba, hsp, hk]
  · intro e hsp
    simp [exec_micromamba, block_on_child_exit, hsp]
  · intro st hsp
    simp [exec_micromamba, block_on_child_exit, hsp]

/-- C4 (witness): in a concrete environment where every spawn fails
with the `NotFound` kind, the executor reports `NotFound`. -/
theorem c4_executor_outcome_classification_witness :
    (exec_micromamba oraOffline (micromamba_at "micromamba" cfgBase []) wEmpty).1 =
      .NotFound :=
  (c4_executor_outcome_classification oraOffline
      (micromamba_at "micromamba" cfgBase []) wEmpty).1.mpr
    ⟨{ kind := .notFound, msg := "No such file or directory" }, rfl, rfl⟩

/-- C5: with `noop_mode = true` the coordinator returns `Noop` at once
with the world state untouched — no spawn, no network request, no
filesystem change — regardless of PATH or cache contents. -/
theorem c5_noop_mode_returns_noop :
    ∀ (os : TargetOS) (config : Config) (args : List String) (o : Oracles)
      (s : WState),
      config.noop_mode = true →
      micromamba os config args o s = (.Noop, s) := by
  intro os config args o s h
  exact micromamba_of_noop h

/-- C5 (witness): the no-op coordinator at a concrete configuration and
a fully populated environment. -/
theorem c5_noop_mode_returns_noop_witness :
    micromamba .linux { cfgBase with noop_mode := true } ["env", "create"]
        oraArchive wEmpty = (.Noop, wEmpty) :=
  c5_noop_mode_returns_noop .linux { cfgBase with noop_mode := true }
    ["env", "create"] oraArchive wEmpty rfl

/-- C3: if the PATH-stage execution attempt yields `CouldNotRun`, the
coordinator returns `CouldNotRun` immediately and the final world state
is the input state plus the single PATH spawn attempt — so the cache
and download stages are never attempted. -/
theorem c3_path_execution_failure_terminal :
    ∀ (os : TargetOS) (config : Config) (args : List String) (o : Oracles)
      (s s₁ : WState),
      config.noop_mode = false →
      exec_micromamba o (micromamba_at "micromamba" config args) s =
        (.CouldNotRun, s₁) →
      micromamba os config args o s = (.CouldNotRun, s₁) ∧
      s₁ = record s (.spawn "micromamba") := by
  intro os config args o s s₁ hn hexec
  refine ⟨micromamba_of_path_fail hn hexec, ?_⟩
  have h2 := exec_snd o (micromamba_at "micromamba" config args) s
  rw [hexec] at h2
  exact h2.symm ▸ rfl

/-- C3 (witness): a concrete environment whose PATH binary exists but
cannot be executed (permission denied). -/
theorem c3_path_execution_failure_terminal_witness :
    micromamba .linux cfgBase [] oraDenied wEmpty =
      (.CouldNotRun, record wEmpty (.spawn "micromamba")) :=
  (c3_path_execution_failure_terminal .linux cfgBase [] oraDenied wEmpty
    (record wEmpty (.spawn "micromamba")) rfl (by decide)).1

/-- C9: the coordinator surfaces only `Noop`, `Ok` or `CouldNotRun` to
its caller; the `NotFound` variant is never its final result. -/
theorem c9_coordinator_never_returns_notfound :
    ∀ (os : TargetOS) (config : Config) (args : List String) (o : Oracles)
      (s : WState),
      (micromamba os config args o s).1 = .Noop ∨
      (∃ es, (micromamba os config args o s).1 = .Ok es) ∨
      (micromamba os config args o s).1 = .CouldNotRun := by
  intro os config args o s
  unfold micromamba
  by_cases hn : config.noop_mode
  · rw [hn]
    left
    rfl
  · have hn' : config.noop_mode = false := by simpa using hn
    rw [hn']
    rw [if_neg (by simp)]
    rcases hexec : exec_micromamba o (micromamba_at "micromamba" config args) s
      with ⟨r1, s1⟩
    cases r1 with
    | Ok es =>
        dsimp only
        right; left; exact ⟨es, rfl⟩
    | CouldNotRun =>
        dsimp only
        right; right; rfl
    | Noop =>
        dsimp only
        rcases hd : download_micromamba os config o s1 with ⟨rd, s2⟩
        cases rd with
        | error e => right; right; rfl
        | ok pth =>
            dsimp only
            rcases hexec2 : exec_micromamba o (micromamba_at pth config args) s2
              with ⟨r2, s3⟩
            cases r2 with
            | Ok es => right; left; exact ⟨es, rfl⟩
            | Noop => right; right; rfl
            | NotFound => right; right; rfl
            | CouldNotRun => right; right; rfl
    | NotFound =>
        dsimp only
        rcases hd : download_micromamba os config o s1 with ⟨rd, s2⟩
        cases rd with
        | error e => right; right; rfl
        | ok pth =>
            dsimp only
            rcases hexec2 : exec_micromamba o (micromamba_at pth config args) s2
              with ⟨r2, s3⟩
            cases r2 with
            | Ok es => right; left; exact ⟨es, rfl⟩
            | Noop => right; right; rfl
            | NotFound => right; right; rfl
            | CouldNotRun => right; right; rfl

/-- C1: `download_micromamba` never consults
`config.download_micromamba` — its result is identical for both values
of the flag — and at a concrete cache-miss input with the flag set to
`false` it still issues the HTTP GET (here failing with a transport
error), contradicting the documented fail-fast behaviour. -/
theorem c1_download_disabled_flag_is_ignored :
    (∀ (os : TargetOS) (config : Config) (o : Oracles) (s : WState) (b : Bool),
        download_micromamba os { config with download_micromamba := b } o s =
          download_micromamba os config o s) ∧
    ({ cfgBase with download_micromamba := false } : Config).download_micromamba
      = false ∧
    download_micromamba .linux { cfgBase with download_micromamba := false }
        oraOffline wEmpty =
      (.error (.Reqwest { msg := "connection refused" }),
        { fs := [],
          events := [.httpGet (dl_url "linux"), .createDir "/cache"] }) ∧
    httpGetCount (download_micromamba .linux
        { cfgBase with download_micromamba := false } oraOffline wEmpty).2 = 1 := by
  refine ⟨fun os config o s b => rfl, rfl, by decide, by decide⟩

/-- C6: once `download_micromamba` has returned a path successfully, an
immediately following call returns the same path as a cache hit with no
further network request; and a successful first call performs exactly
one network request when the binary was not already cached, and none
when it was. -/
theorem c6_cache_hit_single_download :
    ∀ (os : TargetOS) (config : Config) (o : Oracles) (s s₁ : WState)
      (p : String),
      download_micromamba os config o s = (.ok p, s₁) →
      (∃ s₂, download_micromamba os config o s₁ = (.ok p, s₂) ∧
        httpGetCount s₂ = httpGetCount s₁) ∧
      (p ∈ s.fs → httpGetCount s₁ = httpGetCount s) ∧
      (p ∉ s.fs → httpGetCount s₁ = httpGetCount s + 1) := by
  intro os config o s s₁ p h
  obtain ⟨cd, nm, hccd, hbn, hp, hmem, hhitcase, hmisscase⟩ := download_ok_anatomy h
  refine ⟨?_, ?_, hmisscase⟩
  · have hccd1 : csm_cache_dir config o s₁ = (.ok cd, record s₁ (.createDir cd)) :=
      csm_cache_dir_ok_shape (by rw [hccd]) s₁
    have hhit1 : fileExists (record s₁ (.createDir cd)) (pathJoin cd nm) = true := by
      rw [fileExists_true_iff, record_fs, ← hp]
      exact hmem
    refine ⟨record s₁ (.createDir cd), ?_, httpGetCount_record_createDir s₁ cd⟩
    rw [download_hit hccd1 hbn hhit1, hp]
  · intro hmem'
    rw [hhitcase hmem', httpGetCount_record_createDir]

/-- C6 (witness): after one successful download into an empty cache
(one network request), the second call is a cache hit and issues none. -/
theorem c6_cache_hit_single_download_witness :
    ∃ s₂, download_micromamba .linux cfgBase oraArchive s1c =
        (.ok (pathJoin "/cache" "micromamba"), s₂) ∧
      httpGetCount s₂ = httpGetCount s1c :=
  (c6_cache_hit_single_download .linux cfgBase oraArchive wEmpty s1c
    (pathJoin "/cache" "micromamba") (by decide)).1

/-- C7: on a cache miss, `download_micromamba` scans the archive
entries in order: if every entry is skipped (readable entry with a
different path, or unreadable entry path), it fails with
`BinNotInArchive` and leaves the file set unchanged (no file written);
and the first entry whose path equals the expected OS-specific target
is extracted, with all earlier entries skipped and the remaining
entries never examined. -/
theorem c7_archive_scan_first_match :
    ∀ (os : TargetOS) (config : Config) (o : Oracles) (s sA : WState)
      (cd nm tg abp : String) (ar : Archive)
      (entries : List (Except IOError Entry)),
      csm_cache_dir config o s = (.ok cd, sA) →
      binName os = some nm →
      fileExists sA (pathJoin cd nm) = false →
      osTag os = some tg →
      archive_binary_path os = some abp →
      o.net (dl_url tg) = .ok ar →
      ar.entriesResult = .ok entries →
      ((∀ x ∈ entries, skipsEntry abp x = true) →
        download_micromamba os config o s =
          (.error .BinNotInArchive, record sA (.httpGet (dl_url tg))) ∧
        (record sA (.httpGet (dl_url tg))).fs = s.fs) ∧
      (∀ pre ent rest, entries = pre ++ .ok ent :: rest →
        (∀ x ∈ pre, skipsEntry abp x = true) →
        ent.path = .ok abp →
        download_micromamba os config o s =
          extractEntry os (pathJoin cd nm) o (record sA (.httpGet (dl_url tg)))) := by
  intro os config o s sA cd nm tg abp ar entries hccd hbn hmiss htg habp hnet hent
  constructor
  · intro hskip
    constructor
    · rw [download_unfold hccd hbn hmiss htg habp hnet hent]
      have hall := @find_and_extract_skip_all os abp (pathJoin cd nm) o entries
        hskip [] (record sA (.httpGet (dl_url tg)))
      rw [List.append_nil] at hall
      rw [hall]
      rfl
    · rw [record_fs, csm_cache_dir_pair_shape hccd, record_fs]
  · intro pre ent rest hsplit hskip hpath
    rw [download_unfold hccd hbn hmiss htg habp hnet hent, hsplit,
      find_and_extract_skip_all hskip, find_and_extract_match_head hpath]

/-- C7 (witness): a concrete archive without the `bin/micromamba` entry
makes the download fail with `BinNotInArchive` and writes nothing. -/
theorem c7_archive_scan_first_match_witness :
    download_micromamba .linux cfgBase oraNoMatch wEmpty =
      (.error .BinNotInArchive,
        record (record wEmpty (.createDir "/cache")) (.httpGet (dl_url "linux"))) ∧
    (record (record wEmpty (.createDir "/cache")) (.httpGet (dl_url "linux"))).fs =
      wEmpty.fs :=
  (c7_archive_scan_first_match .linux cfgBase oraNoMatch wEmpty
      (record wEmpty (.createDir "/cache")) "/cache" "micromamba" "linux"
      (pathJoin "bin" "micromamba") arNoMatch
      [.ok { path := .ok (pathJoin "bin" "other") }]
      (by decide) rfl (by decide) rfl rfl rfl rfl).1 (by decide)

/-- C8: `csm_cache_dir` uses the configured override verbatim when set,
otherwise the platform cache root joined with the fixed name `csm`;
when the platform root is undeterminable it fails with a `NotFound`
`io::Error` (and, provided directory creation itself never fails with a
`NotFound` kind, that is the only way it fails with that kind); in the
successful cases it attempts recursive directory creation and returns
the chosen path. -/
theorem c8_cache_dir_resolution :
    ∀ (config : Config) (o : Oracles) (s : WState),
      (∀ d, config.cache_dir = some d → o.createDirAll d = .ok () →
        csm_cache_dir config o s = (.ok d, record s (.createDir d))) ∧
      (∀ r, config.cache_dir = none → o.sysCacheDir = some r →
        o.createDirAll (pathJoin r "csm") = .ok () →
        csm_cache_dir config o s =
          (.ok (pathJoin r "csm"), record s (.createDir (pathJoin r "csm")))) ∧
      (config.cache_dir = none → o.sysCacheDir = none →
        csm_cache_dir config o s =
          (.error { kind := .notFound
                    msg := "could not determine user cache directory" }, s)) ∧
      ((∀ pth e, o.createDirAll pth = .error e → e.kind ≠ .notFound) →
        ∀ e s', csm_cache_dir config o s = (.error e, s') →
          e.kind = .notFound →
          config.cache_dir = none ∧ o.sysCacheDir = none) := by
  intro config o s
  refine ⟨?_, ?_, ?_, ?_⟩
  · intro d hcd hcr
    unfold csm_cache_dir
    rw [hcd]
    dsimp only
    rw [hcr]
  · intro r hcd hsys hcr
    unfold csm_cache_dir
    rw [hcd]
    dsimp only
    rw [hsys]
    dsimp only
    rw [hcr]
  · intro hcd hsys
    unfold csm_cache_dir
    rw [hcd]
    dsimp only
    rw [hsys]
  · intro hcda e s' hres hk
    unfold csm_cache_dir at hres
    rcases hcd : config.cache_dir with _ | d
    · rcases hsys : o.sysCacheDir with _ | r
      · exact ⟨rfl, rfl⟩
      · rcases hcr : o.createDirAll (pathJoin r "csm") with e' | u
        · simp only [hcd, hsys, hcr] at hres
          injection hres with h1 h2
          injection h1 with h1
          exact absurd hk (h1 ▸ hcda _ _ hcr)
        · simp [hcd, hsys, hcr] at hres
    · rcases hcr : o.createDirAll d with e' | u
      · simp only [hcd, hcr] at hres
        injection hres with h1 h2
        injection h1 with h1
        exact absurd hk (h1 ▸ hcda _ _ hcr)
      · simp [hcd, hcr] at hres

/-- C8 (witness): on a machine with no resolvable cache root and no
override, resolution fails with the `NotFound` error. -/
theorem c8_cache_dir_resolution_witness :
    csm_cache_dir cfgNoCache oraNoHome wEmpty =
      (.error { kind := .notFound
                msg := "could not determine user cache directory" }, wEmpty) :=
  (c8_cache_dir_resolution cfgNoCache oraNoHome wEmpty).2.2.1 rfl rfl

/-- C10: if the matching entry is found, the cache file is created but
copying its bytes fails, `download_micromamba` returns the IO error
while the (partially written) file remains in the file set at the cache
path, and an immediately following call treats that path as a cache hit
and returns it with no further network request. -/
theorem c10_partial_extraction_not_atomic :
    ∀ (os : TargetOS) (config : Config) (o : Oracles) (s sA : WState)
      (cd nm tg abp : String) (ar : Archive)
      (pre rest : List (Except IOError Entry)) (ent : Entry) (e : IOError),
      csm_cache_dir config o s = (.ok cd, sA) →
      binName os = some nm →
      fileExists sA (pathJoin cd nm) = false →
      osTag os = some tg →
      archive_binary_path os = some abp →
      o.net (dl_url tg) = .ok ar →
      ar.entriesResult = .ok (pre ++ .ok ent :: rest) →
      (∀ x ∈ pre, skipsEntry abp x = true) →
      ent.path = .ok abp →
      o.createFile (pathJoin cd nm) = .ok () →
      o.copyEntry (pathJoin cd nm) = .error e →
      ∃ s₁, download_micromamba os config o s = (.error (.IOFail e), s₁) ∧
        pathJoin cd nm ∈ s₁.fs ∧
        ∃ s₂, download_micromamba os config o s₁ = (.ok (pathJoin cd nm), s₂) ∧
          httpGetCount s₂ = httpGetCount s₁ := by
  intro os config o s sA cd nm tg abp ar pre rest ent e hccd hbn hmiss htg habp
    hnet hent hskip hpath hce hcp
  have hdl : download_micromamba os config o s =
      extractEntry os (pathJoin cd nm) o (record sA (.httpGet (dl_url tg))) := by
    rw [download_unfold hccd hbn hmiss htg habp hnet hent,
      find_and_extract_skip_all hskip, find_and_extract_match_head hpath]
  have hex : extractEntry os (pathJoin cd nm) o (record sA (.httpGet (dl_url tg))) =
      (.error (.IOFail e),
        { fs := pathJoin cd nm :: (record sA (.httpGet (dl_url tg))).fs
          events := .createFile (pathJoin cd nm) ::
            (record sA (.httpGet (dl_url tg))).events }) := by
    unfold extractEntry
    rw [hce]
    dsimp only
    rw [hcp]
    rfl
  refine ⟨_, hdl.trans hex, List.mem_cons_self _ _, ?_⟩
  have h1 : (csm_cache_dir config o s).1 = .ok cd := by rw [hccd]
  have hccd1 := csm_cache_dir_ok_shape h1
    { fs := pathJoin cd nm :: (record sA (.httpGet (dl_url tg))).fs
      events := .createFile (pathJoin cd nm) ::
        (record sA (.httpGet (dl_url tg))).events }
  have hhit1 : fileExists (record
      { fs := pathJoin cd nm :: (record sA (.httpGet (dl_url tg))).fs
        events := .createFile (pathJoin cd nm) ::
          (record sA (.httpGet (dl_url tg))).events } (.createDir cd))
      (pathJoin cd nm) = true := by
    rw [fileExists_true_iff, record_fs]
    exact List.mem_cons_self _ _
  exact ⟨_, download_hit hccd1 hbn hhit1, httpGetCount_record_createDir _ _⟩

/-- C10 (witness): the concrete copy-failure environment leaves the
file cached and the retry succeeds without a new request. -/
theorem c10_partial_extraction_not_atomic_witness :
    ∃ s₁, download_micromamba .linux cfgBase oraCopyFail wEmpty =
        (.error (.IOFail { kind := .other, msg := "No space left on device" }), s₁) ∧
      pathJoin "/cache" "micromamba" ∈ s₁.fs ∧
      ∃ s₂, download_micromamba .linux cfgBase oraCopyFail s₁ =
          (.ok (pathJoin "/cache" "micromamba"), s₂) ∧
        httpGetCount s₂ = httpGetCount s₁ :=
  c10_partial_extraction_not_atomic .linux cfgBase oraCopyFail wEmpty
    (record wEmpty (.createDir "/cache")) "/cache" "micromamba" "linux"
    (pathJoin "bin" "micromamba") arSample
    [.ok { path := .ok (pathJoin "bin" "other") }] []
    { path := .ok (pathJoin "bin" "micromamba") }
    { kind := .other, msg := "No space left on device" }
    (by decide) rfl (by decide) rfl rfl rfl (by decide) (by decide) rfl rfl rfl

end Csm
